import Mathlib

/-!
Verification of the module-composition and training-orchestration core of the
jack machine-reading framework, as a shallow embedding in Lean 4.

The embedding follows the Python sources:
  * jack/core/tensorport.py       (TensorPort, TensorPort.__gt__)
  * jack/core/tensorflow.py       (TFModelModule.__call__, TFReader.train)
  * jack/core/shared_resources.py (SharedResources.store / load)
  * jack/util/hooks.py            (LossHook, XQAEvalHook, KBPEvalHook)

Python dictionaries keyed by ports or by set names are modelled as functions
into Option; numpy / Python float arithmetic is modelled over the rationals;
Python exceptions are modelled with Except where the source can actually raise.
Where code of the repository is not part of the sources (the vocabulary module
and the input module's batch generator), a definition is modelled from the
spec and marked as such in its doc comment.
-/

/-- A tensor port from jack/core/tensorport.py.  The constructor stores the
(TF) dtype tag, the shape (a list of dimensions, None meaning variable), the
name, and the two optional documentation strings, exactly the attributes set
by `TensorPort.__init__`.  Equality of the embedding is structural; Python's
default `__eq__` (object identity) distinguishes at least as much as
structural equality does, and in particular two ports that differ in a field
are unequal under both. -/
structure TensorPort where
  dtype : String
  shape : List (Option Nat)
  name : String
  doc_string : Option String
  shape_string : Option String
deriving DecidableEq

/-- Method `TensorPort.__gt__(self, port): return self.name > port.name` from
jack/core/tensorport.py.  Python string comparison is lexicographic on code
points, as is the String order used here. -/
def TensorPort.gt (p q : TensorPort) : Bool := decide (q.name < p.name)

/-- An abstract TF model module (jack/core/tensorflow.py).  `run` abstracts
`tf_session.run` applied to the tensor of one port given a feed dict: the
graph built in `setup` determines, from the fed values, a value for every
tensor held in `self.tensors`, and the declared output and training-output
ports are exactly the ports whose tensors `__call__` ever fetches. -/
structure TFModelModule (V : Type) where
  output_ports : List TensorPort
  training_output_ports : List TensorPort
  placeholders : List TensorPort
  run : (TensorPort → Option V) → TensorPort → V

/-- Method `TFModelModule.convert_to_feed_dict`: restrict the batch mapping to the
ports that have placeholders (`{ph: mapping[port] for port, ph in
self.placeholders.items() if port in mapping}`). -/
def TFModelModule.convert_to_feed_dict {V : Type} (m : TFModelModule V)
    (mapping : TensorPort → Option V) : TensorPort → Option V :=
  fun p => if p ∈ m.placeholders then mapping p else none

/-- Method `TFModelModule.__call__` from jack/core/tensorflow.py.

The source reads:
  goal_ports = goal_ports or self.output_ports
  feed_dict = self.convert_to_feed_dict(batch)
  goal_tensors = [self.tensors[p] for p in goal_ports
                  if p in self.output_ports or p in self.training_output_ports]
  outputs = self.tf_session.run(goal_tensors, feed_dict)
  ret = dict(zip(filter(lambda p: p in self.output_ports or
                                  p in self.training_output_ports, goal_ports),
                 outputs))
  for p in goal_ports:
      if p not in ret and p in batch:
          ret[p] = batch[p]
  return ret

The parameter default `goal_ports=None` and an explicit empty list are both
falsy in Python, so both select `self.output_ports`; the embedding passes the
empty list for either.  The returned dict is modelled as the function that the
two construction steps determine: a requested port that is an output or
training-output port maps to the session-run value; otherwise a requested
port maps to its batch entry when present; every other port is absent.  No
operation of the source can raise for any input (all dictionary accesses are
guarded), so the embedding is a total function. -/
def TFModelModule.call {V : Type} (m : TFModelModule V) (batch : TensorPort → Option V)
    (goal_ports : List TensorPort) : TensorPort → Option V :=
  let goal := if goal_ports.isEmpty then m.output_ports else goal_ports
  let feed := m.convert_to_feed_dict batch
  fun p =>
    if p ∈ goal ∧ (p ∈ m.output_ports ∨ p ∈ m.training_output_ports) then some (m.run feed p)
    else if p ∈ goal then batch p
    else none

/-- A concrete output port used for concrete evaluations. -/
def portA : TensorPort :=
  { dtype := "float32", shape := [none], name := "candidate_scores",
    doc_string := none, shape_string := none }

/-- A concrete port that no module declares. -/
def portP : TensorPort :=
  { dtype := "int32", shape := [none], name := "mystery",
    doc_string := none, shape_string := none }

/-- A concrete model module with a single output port and a constant graph. -/
def mA : TFModelModule Nat :=
  { output_ports := [portA], training_output_ports := [],
    placeholders := [portA], run := fun _ _ => 7 }

/-- A concrete batch holding no ports at all. -/
def emptyBatch : TensorPort → Option Nat := fun _ => none

/-- A concrete batch holding only the undeclared port portP. -/
def batchWithP : TensorPort → Option Nat :=
  fun p => if p = portP then some 42 else none

/-- The configuration mapping held by shared resources (string keys to values;
the value type is immaterial for the claims and is modelled as strings). -/
abbrev Config := List (String × String)

/-- A vocabulary: the bidirectional token-to-id mapping, modelled by its
token-to-id association list.  The vocabulary module (jack/util/vocab.py) is
not part of the sources. -/
structure Vocab where
  sym2id : List (String × Nat)
deriving DecidableEq

/-- A persisted artifact: either a pickled configuration dictionary or a
stored vocabulary. -/
inductive Artifact where
  | configArt (c : Config)
  | vocabArt (v : Vocab)
deriving DecidableEq

/-- The file system as a mapping from paths to artifacts. -/
abbrev FileSystem := String → Option Artifact

/-- Writing one artifact to a path. -/
def fsWrite (fs : FileSystem) (path : String) (a : Artifact) : FileSystem :=
  fun p => if p = path then some a else fs p

/-- Modelled from the spec: `Vocab.store` of the missing vocabulary module
(jack/util/vocab.py).  Per the spec the vocabulary is "serialized separately"
as its own artifact at the given path. -/
def Vocab.store (v : Vocab) (fs : FileSystem) (path : String) : FileSystem :=
  fsWrite fs path (.vocabArt v)

/-- Modelled from the spec: `Vocab.load` of the missing vocabulary module
(jack/util/vocab.py).  Per the spec "vocabulary load is mandatory" and
"loading vocabulary from a nonexistent path is fatal", so a missing artifact
is an error; otherwise the stored token-to-id mapping is read back. -/
def Vocab.load (fs : FileSystem) (path : String) : Except String Vocab :=
  match fs path with
  | some (.vocabArt v) => .ok v
  | _ => .error "missing vocabulary artifact"

/-- Shared resources (jack/core/shared_resources.py): the configuration
dictionary and the vocabulary (`None` until set). -/
structure SharedResources where
  config : Config
  vocab : Option Vocab

/-- Method `SharedResources.store` from jack/core/shared_resources.py: pickle every
attribute except the vocabulary (here: the config) to `path`, then store the
vocabulary at `path + "_vocab"`.  When `self.vocab` is None the attribute
access `self.vocab.store` raises, modelled by the error case. -/
def SharedResources.store (sr : SharedResources) (fs : FileSystem) (path : String) :
    Except String FileSystem :=
  match sr.vocab with
  | none => .error "NoneType has no attribute store"
  | some v => .ok (Vocab.store v (fsWrite fs path (.configArt sr.config)) (path ++ "_vocab"))

/-- Method `SharedResources.load` from jack/core/shared_resources.py: when `path`
exists, update the attributes from the pickled dictionary (here: replace the
config); otherwise keep the current attributes.  Then unconditionally create
a fresh vocabulary and load it from `path + "_vocab"` (mandatory: the load of
the vocabulary artifact is the spec-modelled `Vocab.load`, fatal when the
artifact is missing). -/
def SharedResources.load (sr : SharedResources) (fs : FileSystem) (path : String) :
    Except String SharedResources :=
  let cfg :=
    match fs path with
    | some (.configArt c) => c
    | _ => sr.config
  match Vocab.load fs (path ++ "_vocab") with
  | .ok v => .ok { config := cfg, vocab := some v }
  | .error e => .error e

/-- One hook callback event of the training loop: which hook was called, at
which callback point, for which epoch. -/
inductive HookEvent (η : Type) where
  | iterEnd (h : η) (epoch : Nat)
  | epochEnd (h : η) (epoch : Nat)
deriving DecidableEq

/-- The sequence of hook callbacks performed by `TFReader.train`
(jack/core/tensorflow.py):

  for i in range(1, max_epochs + 1):
      for j, batch in enumerate(batches):
          ...
          for hook in hooks:
              hook.at_iteration_end(i, current_loss, set_name='train')
      for hook in hooks:
          hook.at_epoch_end(i)

`batches` is produced once before the loop; the spec requires the batch
generator to be restartable, which the list model is, so every epoch
iterates the same batch list. -/
def TFReader.trainTrace {β η : Type} (maxEpochs : Nat) (batches : List β)
    (hooks : List η) : List (HookEvent η) :=
  (List.range maxEpochs).flatMap fun e =>
    (batches.flatMap fun _ => hooks.map fun h => HookEvent.iterEnd h (e + 1)) ++
      (hooks.map fun h => HookEvent.epochEnd h (e + 1))

/-- Fuel-driven chunking of a list into consecutive pieces of length `n`
(the last piece may be shorter); the fuel is an upper bound on the number of
pieces and keeps the definition kernel-reducible. -/
def chunkAux {α : Type} : Nat → Nat → List α → List (List α)
  | 0, _, _ => []
  | _, _, [] => []
  | fuel + 1, n, x :: xs => (x :: xs).take n :: chunkAux fuel n ((x :: xs).drop n)

/-- Modelled from the spec: `InputModule.batch_generator` of the missing
input module.  Per the spec, batch production chunks the instance sequence
into batches of the given size (a dataset of 4 instances with batch size 2
gives 2 batches per epoch) and the produced sequence is restartable, which a
list is.  The fuel `dataset.length` suffices for any positive batch size. -/
def batch_generator {α : Type} (dataset : List α) (batch_size : Nat) : List (List α) :=
  chunkAux dataset.length batch_size dataset

/-- Per-set-name hook state of `LossHook` (jack/util/hooks.py): the four
dictionaries `_acc_loss`, `_iter`, `_epoch_loss`, `_iter_epoch`, each keyed
by set name, modelled as functions into Option (None meaning the key is
absent). -/
structure LossHookState where
  acc_loss : String → Option ℚ
  iter : String → Option Nat
  epoch_loss : String → Option ℚ
  iter_epoch : String → Option Nat

/-- Updating one key of a string-keyed dictionary. -/
def updMap {α : Type} (f : String → Option α) (key : String) (v : α) :
    String → Option α :=
  fun x => if x = key then some v else f x

/-- Constructor `LossHook.__init__`: every dictionary starts with the single key
"train" mapped to zero. -/
def LossHookState.init : LossHookState :=
  { acc_loss := fun s => if s = "train" then some 0 else none
    iter := fun s => if s = "train" then some 0 else none
    epoch_loss := fun s => if s = "train" then some 0 else none
    iter_epoch := fun s => if s = "train" then some 0 else none }

/-- Method `LossHook.at_iteration_end` from jack/util/hooks.py (state effect).

When `_iter_interval` is None the method returns immediately and changes no
state.  Otherwise: a set name not yet present is initialised to zero in all
four dictionaries; then `_iter_epoch[s] += 1`, `_epoch_loss[s] += 1` (the
source adds the literal 1, not the loss), `_iter[s] += 1`,
`_acc_loss[s] += loss`; finally, when `_iter[s]` is a positive multiple of
the interval, `_acc_loss[s]` is reset to 0 (the logging and summary side
effects are not modelled).  The `getD 0` reads are guarded by the
initialisation branch, matching the guaranteed key presence in the source. -/
def LossHook.at_iteration_end (iter_interval : Option Nat) (st : LossHookState)
    (loss : ℚ) (set_name : String) : LossHookState :=
  match iter_interval with
  | none => st
  | some k =>
    let st1 :=
      if (st.acc_loss set_name).isNone then
        { acc_loss := updMap st.acc_loss set_name 0
          iter := updMap st.iter set_name 0
          epoch_loss := updMap st.epoch_loss set_name 0
          iter_epoch := updMap st.iter_epoch set_name 0 }
      else st
    let st2 : LossHookState :=
      { acc_loss := updMap st1.acc_loss set_name ((st1.acc_loss set_name).getD 0 + loss)
        iter := updMap st1.iter set_name ((st1.iter set_name).getD 0 + 1)
        epoch_loss := updMap st1.epoch_loss set_name ((st1.epoch_loss set_name).getD 0 + 1)
        iter_epoch := updMap st1.iter_epoch set_name ((st1.iter_epoch set_name).getD 0 + 1) }
    let it := (st2.iter set_name).getD 0
    if it ≠ 0 ∧ it % k = 0 then
      { st2 with acc_loss := updMap st2.acc_loss set_name 0 }
    else st2

/-- Method `LossHook.at_epoch_end` from jack/util/hooks.py (returned value).

When `_iter_interval` is None the source subscripts None
(`self._iter_interval[set_name]`) and raises, modelled as none.  Otherwise it
returns 0.0 when `_iter_epoch[set_name]` is 0 and
`_epoch_loss[set_name] / _iter_epoch[set_name]` otherwise; a set name absent
from the dictionaries raises KeyError, modelled as none. -/
def LossHook.at_epoch_end (iter_interval : Option Nat) (st : LossHookState)
    (set_name : String) : Option ℚ :=
  match iter_interval with
  | none => none
  | some _ =>
    match st.iter_epoch set_name, st.epoch_loss set_name with
    | some n, some el => some (if n = 0 then 0 else el / (n : ℚ))
    | _, _ => none

/-- Folding `at_iteration_end` over a list of per-batch losses for one set
name (the epoch argument of the source does not influence the state). -/
def LossHook.runIterations (iter_interval : Option Nat) (losses : List ℚ)
    (set_name : String) : LossHookState :=
  losses.foldl (fun st l => LossHook.at_iteration_end iter_interval st l set_name)
    LossHookState.init

/-- The epsilon 1e-10 that `XQAEvalHook.apply_metrics` adds to denominators. -/
def eps10 : ℚ := 1 / 10000000000

/-- The intermediate quantities of the span overlap computation in
`XQAEvalHook.apply_metrics` (jack/util/hooks.py), for one predicted span
`pred` and one gold span `c`:

  total = float(c_end - c_start + 1)
  missed_from_start = float(p_start - c_start)
  missed_from_end = float(c_end - p_end)
  tp = total - min(total, max(0, missed_from_start) + max(0, missed_from_end))
  fp = max(0, -missed_from_start) + max(0, -missed_from_end)

Span bounds are integers; the float arithmetic is modelled over ℚ. -/
structure SpanStats where
  total : ℚ
  missed_from_start : ℚ
  missed_from_end : ℚ
  tp : ℚ
  fp : ℚ
deriving DecidableEq

/-- Computes the five intermediate quantities above. -/
def XQAEvalHook.span_stats (pred c : Int × Int) : SpanStats :=
  let total : ℚ := ((c.2 - c.1 + 1 : Int) : ℚ)
  let missed_from_start : ℚ := ((pred.1 - c.1 : Int) : ℚ)
  let missed_from_end : ℚ := ((c.2 - pred.2 : Int) : ℚ)
  let tp := total - min total (max 0 missed_from_start + max 0 missed_from_end)
  let fp := max 0 (-missed_from_start) + max 0 (-missed_from_end)
  { total := total, missed_from_start := missed_from_start,
    missed_from_end := missed_from_end, tp := tp, fp := fp }

/-- The token-overlap F1 of one predicted span against one gold span:

  recall = tp / total
  precision = tp / (tp + fp + 1e-10)
  2.0 * precision * recall / (precision + recall + 1e-10)
-/
def XQAEvalHook.span_f1 (pred c : Int × Int) : ℚ :=
  let st := XQAEvalHook.span_stats pred c
  let recl := st.tp / st.total
  let precision := st.tp / (st.tp + st.fp + eps10)
  2 * precision * recl / (precision + recl + eps10)

/-- One step of the inner while-loop body of `apply_metrics` on the running
(f1, exact) pair for the current prediction:

  if p_start == c_start and p_end == c_end: f1 = 1.0; exact = 1.0
  elif f1 < 1.0: f1 = max(f1, ...token overlap F1...)
-/
def XQAEvalHook.goldStep (pred c : Int × Int) (f1 ex : ℚ) : ℚ × ℚ :=
  if pred.1 = c.1 ∧ pred.2 = c.2 then (1, 1)
  else if f1 < 1 then (max f1 (XQAEvalHook.span_f1 pred c), ex)
  else (f1, ex)

/-- The inner while-loop of `apply_metrics`:

  while k < len(correct_spans) and correct2prediction[k] == i: ...; k += 1

The gold spans not yet consumed are carried as a list of pairs (gold span,
owning question index); the loop consumes leading pairs whose question index
equals the current prediction index `i` and returns the final (f1, exact)
pair together with the remaining gold pairs. -/
def XQAEvalHook.goldLoop (pred : Int × Int) (i : Nat) :
    List ((Int × Int) × Nat) → ℚ → ℚ → ℚ × ℚ × List ((Int × Int) × Nat)
  | [], f1, ex => (f1, ex, [])
  | (c, q) :: rest, f1, ex =>
    if q = i then
      let fe := XQAEvalHook.goldStep pred c f1 ex
      XQAEvalHook.goldLoop pred i rest fe.1 fe.2
    else (f1, ex, (c, q) :: rest)

/-- The outer for-loop of `apply_metrics` over predictions, accumulating
`acc_f1` and `acc_exact`; `i` is the running prediction index and the gold
pairs are threaded through (the index `k` of the source never resets). -/
def XQAEvalHook.predLoop :
    List (Int × Int) → Nat → List ((Int × Int) × Nat) → ℚ → ℚ → ℚ × ℚ
  | [], _, _, accF1, accEx => (accF1, accEx)
  | pred :: rest, i, golds, accF1, accEx =>
    match XQAEvalHook.goldLoop pred i golds 0 0 with
    | (f1, ex, golds1) => XQAEvalHook.predLoop rest (i + 1) golds1 (accF1 + f1) (accEx + ex)

/-- Method `XQAEvalHook.apply_metrics` (jack/util/hooks.py): given the predicted
spans, the gold spans, and the parallel answer2question index array mapping
each gold span to its question index, returns the accumulated (f1, exact)
pair (the returned dict {"f1": acc_f1, "exact": acc_exact} is modelled as the
pair in that order).  The two parallel gold arrays are zipped. -/
def XQAEvalHook.apply_metrics (predicted_spans correct_spans : List (Int × Int))
    (correct2prediction : List Nat) : ℚ × ℚ :=
  XQAEvalHook.predLoop predicted_spans 0 (correct_spans.zip correct2prediction) 0 0

/-- Function `rankdata(-scores, method="min")` as used by `KBPEvalHook.at_test_time`
(jack/util/hooks.py): under descending order with the "min" ties policy, the
rank of a candidate is 1 plus the number of candidates with strictly greater
score, so tied scores all receive the lowest (best) shared rank. -/
def KBPEvalHook.cand_ranks (scores : List ℚ) : List Nat :=
  scores.map fun s => 1 + (scores.filter fun t => decide (s < t)).length

/-- The collection of gold-answer ranks of one question in
`KBPEvalHook.at_test_time`:

  for a in q_answers[q]:
      for c, cand in enumerate(q_cand_ids[q]):
          if a == cand and cand_ranks[c] <= 100:
              ans_ranks.append(cand_ranks[c])

Candidate ids and answers are modelled as naturals; the candidate-id list and
the rank list are parallel and zipped. -/
def KBPEvalHook.ans_ranks (answers cand_ids : List Nat) (ranks : List Nat) : List Nat :=
  answers.flatMap fun a =>
    ((cand_ids.zip ranks).filter fun cr => decide (cr.1 = a) && decide (cr.2 ≤ 100)).map
      fun cr => cr.2

/-- Insertion of a natural into a sorted list (ascending). -/
def sortedInsert (r : Nat) : List Nat → List Nat
  | [] => [r]
  | x :: xs => if r ≤ x then r :: x :: xs else x :: sortedInsert r xs

/-- Insertion sort, modelling Python's `sorted` on lists of naturals. -/
def insertionSort : List Nat → List Nat
  | [] => []
  | x :: xs => sortedInsert x (insertionSort xs)

/-- The precision accumulation of `KBPEvalHook.at_test_time`:

  answers = 1
  for r in sorted(ans_ranks):
      p = answers / r
      av_p = av_p + p
      answers += 1
-/
def KBPEvalHook.av_p_loop : List Nat → Nat → ℚ → ℚ
  | [], _, acc => acc
  | r :: rs, answers, acc => KBPEvalHook.av_p_loop rs (answers + 1) (acc + (answers : ℚ) / (r : ℚ))

/-- The average precision of one question in `KBPEvalHook.at_test_time`:
the accumulated precision sum over the sorted gold-answer ranks, divided by
the number of found gold answers when there is at least one (otherwise the
contribution stays 0). -/
def KBPEvalHook.question_av_p (scores : List ℚ) (cand_ids answers : List Nat) : ℚ :=
  let ranks := KBPEvalHook.cand_ranks scores
  let ars := insertionSort (KBPEvalHook.ans_ranks answers cand_ids ranks)
  let s := KBPEvalHook.av_p_loop ars 1 0
  if ars.length > 0 then s / (ars.length : ℚ) else s

/-- The mean average precision of `KBPEvalHook.at_test_time`: per-question
average precisions are summed and divided by the number of questions
(`mean_ap / q_answers_len if q_answers_len else 0`).  Each question is given
as its candidate scores, its candidate ids, and its set of gold answers. -/
def KBPEvalHook.mean_ap (questions : List (List ℚ × List Nat × List Nat)) : ℚ :=
  let s := (questions.map fun qd => KBPEvalHook.question_av_p qd.1 qd.2.1 qd.2.2).sum
  if questions.length ≠ 0 then s / (questions.length : ℚ) else 0

/-- Recognizer for iteration-end events of one hook, any epoch. -/
def isIterEndOf {η : Type} [DecidableEq η] (h : η) : HookEvent η → Bool
  | .iterEnd h1 _ => decide (h1 = h)
  | .epochEnd _ _ => false

/-- Recognizer for epoch-end events of one hook, any epoch. -/
def isEpochEndOf {η : Type} [DecidableEq η] (h : η) : HookEvent η → Bool
  | .iterEnd _ _ => false
  | .epochEnd h1 _ => decide (h1 = h)

/-- Two concrete ports sharing the name but differing in dtype. -/
def portN1 : TensorPort :=
  { dtype := "int32", shape := [none], name := "shared_name",
    doc_string := none, shape_string := none }

/-- The second concrete port of the pair. -/
def portN2 : TensorPort :=
  { dtype := "float32", shape := [none], name := "shared_name",
    doc_string := none, shape_string := none }

/-- A concrete non-empty vocabulary. -/
def vocabOne : Vocab := { sym2id := [("the", 0), ("cat", 1)] }

/-- Concrete shared resources with a non-empty config and vocabulary. -/
def srOne : SharedResources :=
  { config := [("learning_rate", "0.01")], vocab := some vocabOne }

/-- A concrete empty file system. -/
def fsEmpty : FileSystem := fun _ => none

/-- A concrete file system holding only a vocabulary artifact for prefix
"model" (no config artifact). -/
def fsVocabOnly : FileSystem :=
  fun p => if p = "model" ++ "_vocab" then some (.vocabArt vocabOne) else none


/-- The derived vocabulary path differs from the prefix path itself. -/
theorem append_vocab_ne (s : String) : s ++ "_vocab" ≠ s := by
  intro h
  have hlen := congrArg String.length h
  rw [String.length_append] at hlen
  have h6 : "_vocab".length = 6 := rfl
  omega

/-- Claim C1 (counterexample): requesting the goal port portP, which is
neither among the output ports of the concrete module mA nor among its
training output ports nor present in the (empty) batch, does not signal any
contract violation: `TFModelModule.call` is a total function (the source has
no raise path: every dictionary access in `__call__` is guarded) and it
returns a mapping from which portP is silently omitted. -/
theorem tf_call_silently_omits_unknown_port :
    mA.call emptyBatch [portA, portP] portP = none := by decide

/-- Claim C1 (amended): for every batch and every requested goal port p that
is neither in the model module's output ports nor in its training output
ports nor present in the batch, `TFModelModule.__call__` returns normally and
the returned mapping silently omits p (no contract violation is signaled). -/
theorem tf_call_omits_undeclared_goal_port {V : Type} (m : TFModelModule V)
    (batch : TensorPort → Option V) (goal_ports : List TensorPort) (p : TensorPort)
    (hg : p ∈ goal_ports) (ho : p ∉ m.output_ports) (ht : p ∉ m.training_output_ports)
    (hb : batch p = none) :
    m.call batch goal_ports p = none := by
  have hne : goal_ports.isEmpty = false := by
    cases goal_ports
    · cases hg
    · rfl
  simp [TFModelModule.call, hne, hg, ho, ht, hb]

/-- Claim C1 (witness for the amended theorem). -/
theorem tf_call_omits_undeclared_goal_port_witness :
    mA.call emptyBatch [portP] portP = none :=
  tf_call_omits_undeclared_goal_port mA emptyBatch [portP] portP
    (by decide) (by decide) (by decide) rfl

/-- Claim C4: a goal port that is present in the batch but not among the
module's output ports or training output ports is passed through unchanged:
the mapping returned by `TFModelModule.__call__` maps it to exactly the value
the batch held (`ret[p] = batch[p]` in the source). -/
theorem tf_call_passthrough {V : Type} (m : TFModelModule V)
    (batch : TensorPort → Option V) (goal_ports : List TensorPort) (p : TensorPort) (v : V)
    (hg : p ∈ goal_ports) (ho : p ∉ m.output_ports) (ht : p ∉ m.training_output_ports)
    (hb : batch p = some v) :
    m.call batch goal_ports p = some v := by
  have hne : goal_ports.isEmpty = false := by
    cases goal_ports
    · cases hg
    · rfl
  simp [TFModelModule.call, hne, hg, ho, ht, hb]

/-- Claim C4 (witness). -/
theorem tf_call_passthrough_witness :
    mA.call batchWithP [portP] portP = some 42 :=
  tf_call_passthrough mA batchWithP [portP] portP 42
    (by decide) (by decide) (by decide) (by decide)

/-- Claim C9: an empty goal-port list (and the default None, which the Python
`or` treats identically) selects the module's declared output ports: the call
behaves exactly as a call requesting all output ports, and the returned
mapping holds the computed value for every declared output port. -/
theorem tf_call_empty_goal_ports {V : Type} (m : TFModelModule V)
    (batch : TensorPort → Option V) :
    m.call batch [] = m.call batch m.output_ports ∧
    ∀ p, p ∈ m.output_ports →
      m.call batch [] p = some (m.run (m.convert_to_feed_dict batch) p) := by
  constructor
  · simp [TFModelModule.call, ite_self]
  · intro p hp
    simp [TFModelModule.call, hp]

/-- Claim C9 (witness). -/
theorem tf_call_empty_goal_ports_witness :
    mA.call emptyBatch [] portA = some 7 :=
  (tf_call_empty_goal_ports mA emptyBatch).2 portA (by decide)

/-- Claim C8 (counterexample): two ports that share the name "shared_name"
but differ in dtype are not equal (the source defines no name-based __eq__;
equality of port objects is not determined by the name). -/
theorem tensorPort_same_name_not_equal :
    portN1.name = portN2.name ∧ portN1 ≠ portN2 := by decide

/-- Claim C8 (amended): ordering over TensorPort objects is determined by the
port's name — p > q holds iff p.name > q.name (`__gt__` in the source) — but
equality is not determined by the name: two ports with the same name can be
distinct objects. -/
theorem tensorPort_gt_iff_name_ordering :
    (∀ p q : TensorPort, TensorPort.gt p q = true ↔ q.name < p.name) ∧
    (∃ p q : TensorPort, p.name = q.name ∧ p ≠ q) := by
  constructor
  · intro p q
    simp [TensorPort.gt]
  · exact ⟨portN1, portN2, rfl, by decide⟩

/-- Claim C2: `XQAEvalHook.apply_metrics` on one predicted span (3,5) with
gold spans [(3,5)] mapped to question 0 yields exact = 1.0 and f1 = 1.0; on
predicted span (3,5) with the single gold span (4,5) the intermediate
quantities are total = 2, missed_from_start = -1, missed_from_end = 0,
tp = 2, fp = 1, recall = 1.0, precision within 1e-6 of 2/3 (1e-10 is added to
denominators), and the result is exact = 0.0 with f1 within 1e-6 of 0.8. -/
theorem xqa_apply_metrics_example :
    XQAEvalHook.apply_metrics [(3,5)] [(3,5)] [0] = (1, 1) ∧
    XQAEvalHook.span_stats (3,5) (4,5) =
      { total := 2, missed_from_start := -1, missed_from_end := 0, tp := 2, fp := 1 } ∧
    (XQAEvalHook.span_stats (3,5) (4,5)).tp / (XQAEvalHook.span_stats (3,5) (4,5)).total = 1 ∧
    |(XQAEvalHook.span_stats (3,5) (4,5)).tp /
        ((XQAEvalHook.span_stats (3,5) (4,5)).tp + (XQAEvalHook.span_stats (3,5) (4,5)).fp +
          eps10) - 2/3| < 1/1000000 ∧
    (XQAEvalHook.apply_metrics [(3,5)] [(4,5)] [0]).2 = 0 ∧
    |(XQAEvalHook.apply_metrics [(3,5)] [(4,5)] [0]).1 - 4/5| < 1/1000000 := by
  have hstats : XQAEvalHook.span_stats (3,5) (4,5) =
      { total := 2, missed_from_start := -1, missed_from_end := 0, tp := 2, fp := 1 } := by
    norm_num [XQAEvalHook.span_stats, min_def, max_def]
  have hmetrics : XQAEvalHook.apply_metrics [(3,5)] [(4,5)] [0] =
      (400000000000000000000 / (500000000000000000000 + 40000000001), 0) := by
    norm_num [XQAEvalHook.apply_metrics, XQAEvalHook.predLoop, XQAEvalHook.goldLoop,
      XQAEvalHook.goldStep, XQAEvalHook.span_f1, XQAEvalHook.span_stats, eps10,
      min_def, max_def]
  refine ⟨?_, hstats, ?_, ?_, ?_, ?_⟩
  · norm_num [XQAEvalHook.apply_metrics, XQAEvalHook.predLoop, XQAEvalHook.goldLoop,
      XQAEvalHook.goldStep, XQAEvalHook.span_f1, XQAEvalHook.span_stats, eps10]
  · rw [hstats]
    norm_num
  · rw [hstats]
    rw [abs_sub_lt_iff]
    constructor <;> norm_num [eps10]
  · rw [hmetrics]
  · rw [hmetrics]
    rw [abs_sub_lt_iff]
    constructor <;> norm_num

/-- Claim C3: the ranking of `KBPEvalHook.at_test_time` gives candidates with
scores [0.9, 0.5, 0.1] the descending-order min-method ranks [1, 2, 3] (and,
for the tie case [0.5, 0.5, 0.1], the shared minimum ranks [1, 1, 3]); only
gold answers ranked at most 100 are counted; for the single question with one
gold candidate scored 0.5 the gold rank is 2, the average precision is
(1/2)/1 = 0.5, and the MAP over this one question is 0.5. -/
theorem kbp_map_single_question :
    KBPEvalHook.cand_ranks [9/10, 1/2, 1/10] = [1, 2, 3] ∧
    KBPEvalHook.cand_ranks [1/2, 1/2, 1/10] = [1, 1, 3] ∧
    KBPEvalHook.ans_ranks [1] [0, 1, 2] (KBPEvalHook.cand_ranks [9/10, 1/2, 1/10]) = [2] ∧
    KBPEvalHook.ans_ranks [5] [5] [101] = [] ∧
    KBPEvalHook.ans_ranks [5] [5] [100] = [100] ∧
    KBPEvalHook.question_av_p [9/10, 1/2, 1/10] [0, 1, 2] [1] = 1/2 ∧
    KBPEvalHook.mean_ap [([9/10, 1/2, 1/10], [0, 1, 2], [1])] = 1/2 := by
  norm_num [KBPEvalHook.mean_ap, KBPEvalHook.question_av_p, KBPEvalHook.cand_ranks,
    KBPEvalHook.ans_ranks, KBPEvalHook.av_p_loop, insertionSort, sortedInsert,
    List.filter, List.zip, List.zipWith]

/-- Claim C5: storing shared resources with a non-empty vocabulary and config
and loading from the same prefix into a fresh instance reproduces the
identical vocabulary (hence every token maps to the same id) and an equal
config mapping. -/
theorem sharedResources_store_load_roundtrip (sr : SharedResources) (fs : FileSystem)
    (path : String) (v : Vocab) (hv : sr.vocab = some v)
    (_hvne : v.sym2id ≠ []) (_hcne : sr.config ≠ []) :
    ∃ fs1, sr.store fs path = .ok fs1 ∧
      SharedResources.load { config := [], vocab := none } fs1 path =
        .ok { config := sr.config, vocab := some v } := by
  have hne : path ≠ path ++ "_vocab" := (append_vocab_ne path).symm
  refine ⟨Vocab.store v (fsWrite fs path (.configArt sr.config)) (path ++ "_vocab"), ?_, ?_⟩
  · simp [SharedResources.store, hv]
  · simp [SharedResources.load, Vocab.load, Vocab.store, fsWrite, hne]

/-- Claim C5 (witness). -/
theorem sharedResources_store_load_roundtrip_witness :
    ∃ fs1, srOne.store fsEmpty "model" = .ok fs1 ∧
      SharedResources.load { config := [], vocab := none } fs1 "model" =
        .ok { config := srOne.config, vocab := some vocabOne } :=
  sharedResources_store_load_roundtrip srOne fsEmpty "model" vocabOne
    rfl (by decide) (by decide)

/-- Claim C6: loading shared resources from a prefix whose config artifact
does not exist succeeds and falls back to the empty config of the fresh
instance, provided the vocabulary artifact exists; loading from a prefix
whose derived vocabulary artifact (prefix + "_vocab") does not exist fails. -/
theorem sharedResources_load_missing_artifacts (fs fs2 : FileSystem) (path : String)
    (v : Vocab) (sr : SharedResources)
    (h1 : fs path = none) (h2 : fs (path ++ "_vocab") = some (.vocabArt v))
    (h3 : fs2 (path ++ "_vocab") = none) :
    SharedResources.load { config := [], vocab := none } fs path =
      .ok { config := [], vocab := some v } ∧
    ∃ e, sr.load fs2 path = .error e := by
  constructor
  · simp [SharedResources.load, Vocab.load, h1, h2]
  · exact ⟨"missing vocabulary artifact", by simp [SharedResources.load, Vocab.load, h3]⟩

/-- Claim C6 (witness). -/
theorem sharedResources_load_missing_artifacts_witness :
    SharedResources.load { config := [], vocab := none } fsVocabOnly "model" =
      .ok { config := [], vocab := some vocabOne } ∧
    ∃ e, SharedResources.load srOne fsEmpty "model" = .error e :=
  sharedResources_load_missing_artifacts fsVocabOnly fsEmpty "model" vocabOne srOne
    (by decide) (by decide) rfl

/-- Iteration-end events of hook h among the iteration-end events of one
callback point are as many as the occurrences of h in the hook list. -/
theorem length_filter_isIterEnd_map_iterEnd {η : Type} [DecidableEq η]
    (hooks : List η) (h : η) (e : Nat) :
    ((hooks.map fun x => HookEvent.iterEnd x e).filter (isIterEndOf h)).length
      = (hooks.filter fun x => decide (x = h)).length := by
  induction hooks with
  | nil => rfl
  | cons a t ih =>
    by_cases hxa : a = h
    · simp [isIterEndOf, hxa, List.filter_cons, ih]
    · simp [isIterEndOf, hxa, List.filter_cons, ih]

/-- No iteration-end event of any hook occurs among epoch-end events. -/
theorem length_filter_isIterEnd_map_epochEnd {η : Type} [DecidableEq η]
    (hooks : List η) (h : η) (e : Nat) :
    ((hooks.map fun x => HookEvent.epochEnd x e).filter (isIterEndOf h)).length = 0 := by
  induction hooks with
  | nil => rfl
  | cons a t ih => simp [isIterEndOf, List.filter_cons, ih]

/-- Epoch-end events of hook h among the epoch-end events of one callback
point are as many as the occurrences of h in the hook list. -/
theorem length_filter_isEpochEnd_map_epochEnd {η : Type} [DecidableEq η]
    (hooks : List η) (h : η) (e : Nat) :
    ((hooks.map fun x => HookEvent.epochEnd x e).filter (isEpochEndOf h)).length
      = (hooks.filter fun x => decide (x = h)).length := by
  induction hooks with
  | nil => rfl
  | cons a t ih =>
    by_cases hxa : a = h
    · simp [isEpochEndOf, hxa, List.filter_cons, ih]
    · simp [isEpochEndOf, hxa, List.filter_cons, ih]

/-- No epoch-end event of any hook occurs among iteration-end events. -/
theorem length_filter_isEpochEnd_map_iterEnd {η : Type} [DecidableEq η]
    (hooks : List η) (h : η) (e : Nat) :
    ((hooks.map fun x => HookEvent.iterEnd x e).filter (isEpochEndOf h)).length = 0 := by
  induction hooks with
  | nil => rfl
  | cons a t ih => simp [isEpochEndOf, List.filter_cons, ih]

/-- Claim C7: training for max_epochs = 2 with batch size 2 over a dataset of
4 instances (2 batches per epoch from the restartable batch generator) calls
hooks in strict epoch-major, batch-minor order with the hooks called
synchronously in registration order at every callback point — the full trace
is exactly the two epoch blocks, each consisting of the per-batch
iteration-end sweeps over the hook list followed by the epoch-end sweep — and
every hook registered once receives exactly 4 iteration-end calls and exactly
2 epoch-end calls. -/
theorem tfReader_train_hook_schedule {η : Type} [DecidableEq η] (hooks : List η) (h : η)
    (hmem : (hooks.filter fun x => decide (x = h)).length = 1) :
    TFReader.trainTrace 2 (batch_generator [1, 2, 3, 4] 2) hooks =
      ((hooks.map fun x => HookEvent.iterEnd x 1) ++ (hooks.map fun x => HookEvent.iterEnd x 1)
        ++ (hooks.map fun x => HookEvent.epochEnd x 1)) ++
      ((hooks.map fun x => HookEvent.iterEnd x 2) ++ (hooks.map fun x => HookEvent.iterEnd x 2)
        ++ (hooks.map fun x => HookEvent.epochEnd x 2)) ∧
    ((TFReader.trainTrace 2 (batch_generator [1, 2, 3, 4] 2) hooks).filter
        (isIterEndOf h)).length = 4 ∧
    ((TFReader.trainTrace 2 (batch_generator [1, 2, 3, 4] 2) hooks).filter
        (isEpochEndOf h)).length = 2 := by
  have htrace : TFReader.trainTrace 2 (batch_generator [1, 2, 3, 4] 2) hooks =
      ((hooks.map fun x => HookEvent.iterEnd x 1) ++ (hooks.map fun x => HookEvent.iterEnd x 1)
        ++ (hooks.map fun x => HookEvent.epochEnd x 1)) ++
      ((hooks.map fun x => HookEvent.iterEnd x 2) ++ (hooks.map fun x => HookEvent.iterEnd x 2)
        ++ (hooks.map fun x => HookEvent.epochEnd x 2)) := by
    show TFReader.trainTrace 2 [[1, 2], [3, 4]] hooks = _
    simp [TFReader.trainTrace, List.range_succ]
  refine ⟨htrace, ?_, ?_⟩
  · rw [htrace]
    simp [List.filter_append, length_filter_isIterEnd_map_iterEnd,
      length_filter_isIterEnd_map_epochEnd, hmem]
  · rw [htrace]
    simp [List.filter_append, length_filter_isEpochEnd_map_epochEnd,
      length_filter_isEpochEnd_map_iterEnd, hmem]

/-- Claim C7 (witness): two hooks registered as [0, 1], counting for hook 0. -/
theorem tfReader_train_hook_schedule_witness :
    TFReader.trainTrace 2 (batch_generator [1, 2, 3, 4] 2) [0, 1] =
      (([0, 1].map fun x => HookEvent.iterEnd x 1) ++ ([0, 1].map fun x => HookEvent.iterEnd x 1)
        ++ ([0, 1].map fun x => HookEvent.epochEnd x 1)) ++
      (([0, 1].map fun x => HookEvent.iterEnd x 2) ++ ([0, 1].map fun x => HookEvent.iterEnd x 2)
        ++ ([0, 1].map fun x => HookEvent.epochEnd x 2)) ∧
    ((TFReader.trainTrace 2 (batch_generator [1, 2, 3, 4] 2) [0, 1]).filter
        (isIterEndOf 0)).length = 4 ∧
    ((TFReader.trainTrace 2 (batch_generator [1, 2, 3, 4] 2) [0, 1]).filter
        (isEpochEndOf 0)).length = 2 :=
  tfReader_train_hook_schedule [0, 1] 0 (by decide)

/-- One `at_iteration_end` step with a non-None interval on a state whose
set-name entry is present with epoch-loss and iteration-count in sync
increments both by one (and keeps the entry present). -/
theorem lossHook_iter_step (k : Nat) (loss : ℚ) (s : String) (st : LossHookState)
    (n : Nat) (a : ℚ) (h1 : st.acc_loss s = some a) (h2 : st.epoch_loss s = some (n : ℚ))
    (h3 : st.iter_epoch s = some n) :
    ∃ a1, (LossHook.at_iteration_end (some k) st loss s).acc_loss s = some a1 ∧
      (LossHook.at_iteration_end (some k) st loss s).epoch_loss s = some ((n + 1 : Nat) : ℚ) ∧
      (LossHook.at_iteration_end (some k) st loss s).iter_epoch s = some (n + 1) := by
  unfold LossHook.at_iteration_end
  simp only [h1, Option.isNone_some, Bool.false_eq_true, if_false]
  split
  · exact ⟨0, by simp [updMap], by simp [updMap, h2, Nat.cast_succ],
      by simp [updMap, h3]⟩
  · exact ⟨a + loss, by simp [updMap, h1], by simp [updMap, h2, Nat.cast_succ],
      by simp [updMap, h3]⟩

/-- One `at_iteration_end` step with a non-None interval on a state whose
set-name entry is absent first initialises the entry to zero in all four
dictionaries and then increments, leaving epoch-loss and iteration-count at
one. -/
theorem lossHook_iter_step_absent (k : Nat) (loss : ℚ) (s : String) (st : LossHookState)
    (h1 : st.acc_loss s = none) :
    ∃ a1, (LossHook.at_iteration_end (some k) st loss s).acc_loss s = some a1 ∧
      (LossHook.at_iteration_end (some k) st loss s).epoch_loss s = some ((1 : Nat) : ℚ) ∧
      (LossHook.at_iteration_end (some k) st loss s).iter_epoch s = some 1 := by
  unfold LossHook.at_iteration_end
  simp only [h1, Option.isNone_none, if_true]
  split
  · exact ⟨0, by simp [updMap], by simp [updMap], by simp [updMap]⟩
  · exact ⟨0 + loss, by simp [updMap], by simp [updMap], by simp [updMap]⟩

/-- Folding `at_iteration_end` over any loss list preserves the in-sync
invariant, adding the list length to both counters. -/
theorem lossHook_fold_inv (k : Nat) (s : String) (losses : List ℚ) :
    ∀ (st : LossHookState) (n : Nat) (a : ℚ), st.acc_loss s = some a →
      st.epoch_loss s = some (n : ℚ) → st.iter_epoch s = some n →
      ∃ a1,
        (losses.foldl (fun st1 l => LossHook.at_iteration_end (some k) st1 l s) st).acc_loss s
          = some a1 ∧
        (losses.foldl (fun st1 l => LossHook.at_iteration_end (some k) st1 l s) st).epoch_loss s
          = some ((n + losses.length : Nat) : ℚ) ∧
        (losses.foldl (fun st1 l => LossHook.at_iteration_end (some k) st1 l s) st).iter_epoch s
          = some (n + losses.length) := by
  induction losses with
  | nil =>
    intro st n a h1 h2 h3
    exact ⟨a, h1, by simpa using h2, by simpa using h3⟩
  | cons l ls ih =>
    intro st n a h1 h2 h3
    obtain ⟨a1, g1, g2, g3⟩ := lossHook_iter_step k l s st n a h1 h2 h3
    obtain ⟨a2, f1, f2, f3⟩ := ih _ (n + 1) a1 g1 g2 g3
    refine ⟨a2, f1, ?_, ?_⟩
    · rw [List.foldl_cons, f2]
      simp only [List.length_cons, Option.some.injEq, Nat.cast_inj]
      omega
    · rw [List.foldl_cons, f3]
      simp only [List.length_cons, Option.some.injEq]
      omega

/-- Claim C10: for a `LossHook` with a non-None iteration interval, after one
or more `at_iteration_end` calls for a given set name with arbitrary losses,
`at_epoch_end` for that set name returns exactly 1.0 regardless of the loss
values — the source increments `_epoch_loss` by the literal 1 per iteration
rather than by the loss, so the quotient `_epoch_loss / _iter_epoch` is
n / n — and it returns 0.0 for the (pre-initialised) "train" set when no
iteration has occurred in the epoch. -/
theorem lossHook_epoch_end_one_or_zero :
    (∀ (k : Nat) (s : String) (l : ℚ) (ls : List ℚ),
      LossHook.at_epoch_end (some k) (LossHook.runIterations (some k) (l :: ls) s) s
        = some 1) ∧
    (∀ k : Nat, LossHook.at_epoch_end (some k) LossHookState.init "train" = some 0) := by
  constructor
  · intro k s l ls
    have hrun : LossHook.runIterations (some k) (l :: ls) s =
        (l :: ls).foldl (fun st1 l1 => LossHook.at_iteration_end (some k) st1 l1 s)
          LossHookState.init := rfl
    by_cases hs : s = "train"
    · subst hs
      have h1 : LossHookState.init.acc_loss "train" = some 0 := by
        simp [LossHookState.init]
      have h2 : LossHookState.init.epoch_loss "train" = some ((0 : Nat) : ℚ) := by
        simp [LossHookState.init]
      have h3 : LossHookState.init.iter_epoch "train" = some 0 := by
        simp [LossHookState.init]
      obtain ⟨a1, f1, f2, f3⟩ :=
        lossHook_fold_inv k "train" (l :: ls) LossHookState.init 0 0 h1 h2 h3
      rw [hrun]
      rw [LossHook.at_epoch_end]
      rw [f2, f3]
      simp only [List.length_cons, Nat.zero_add]
      have hne : ls.length + 1 ≠ 0 := Nat.succ_ne_zero _
      simp [hne]
      exact div_self (by positivity)
    · have h1 : LossHookState.init.acc_loss s = none := by
        simp [LossHookState.init, hs]
      obtain ⟨a1, g1, g2, g3⟩ :=
        lossHook_iter_step_absent k l s LossHookState.init h1
      obtain ⟨a2, f1, f2, f3⟩ :=
        lossHook_fold_inv k s ls (LossHook.at_iteration_end (some k) LossHookState.init l s)
          1 a1 g1 g2 g3
      rw [hrun, List.foldl_cons]
      rw [LossHook.at_epoch_end]
      rw [f2, f3]
      have hne : 1 + ls.length ≠ 0 := by omega
      simp [hne]
      exact div_self (by positivity)
  · intro k
    simp [LossHook.at_epoch_end, LossHookState.init]
